import Mathlib

/-!
Verification of the datalad excerpt (dataset creation, plugin dispatch,
GitHub sibling creation) against its natural-language specification.

The development shallowly embeds the Python code:
* `src/datalad/distribution/create.py` (`Create.__call__`)
* `src/datalad/plugin/__init__.py` (`Plugin.__call__`)
* the credential-retry logic of `create_sibling_github.py`, whose source is
  not part of the excerpt (only its tests are) and is therefore modelled
  from the description of the credential retry policy in the specification.

External collaborators (filesystem, config store, git/git-annex, the GitHub
API, the python import machinery) are passed in as explicit environments.
-/

set_option autoImplicit false

namespace Datalad

/-! ## GitHub sibling creation (`create_sibling_github.py`, modelled from the spec) -/

/-- A hosted repository record as returned by the create-repository API call:
it exposes an HTTPS clone URL and an SSH URL (mirrors the `FakeRepo`
namedtuple `(clone_url, ssh_url)` used by `test_get_repo_url`). -/
structure HostedRepo where
  clone_url : String
  ssh_url : String
deriving Repr, DecidableEq

/-- Modelled from the spec: `get_repo_url` of `create_sibling_github.py` is not
in the excerpt. Per the spec, URL selection is by protocol with optional
username substitution for HTTPS: protocol `ssh` returns the SSH URL, protocol
`https` returns the HTTPS clone URL, with the username inserted right after
the `https://` scheme when one is given. -/
def get_repo_url (repo : HostedRepo) (access_protocol : String)
    (github_login : Option String) : String :=
  if access_protocol = "ssh" then
    repo.ssh_url
  else
    match github_login with
    | none => repo.clone_url
    | some user => "https://" ++ user ++ "@" ++ (repo.clone_url.drop 8)

/-- Modelled from the spec: one step of the credential retry policy of
`_make_github_repos`. Starting from credential index `c` with `fuel`
candidates left, attempt to create repository `r`; `ok c r = true` means the
attempt with credential `c` succeeds, `false` means it fails with an
authentication error, upon which the next candidate credential is tried for
the *same* repository. Returns the index of the succeeding credential (or
`none` when the candidates are exhausted) together with the list of
`(credential, repository)` attempts that were made, in order. -/
def tryFromCred (ok : Nat → Nat → Bool) (r : Nat) :
    Nat → Nat → Option Nat × List (Nat × Nat)
  | _, 0 => (none, [])
  | c, fuel + 1 =>
    if ok c r then
      (some c, [(c, r)])
    else
      let rest := tryFromCred ok r (c + 1) fuel
      (rest.1, (c, r) :: rest.2)

/-- Modelled from the spec: the per-repository loop of `_make_github_repos`.
Repositories are processed in input order (`r` is the index of the first one,
`c` the current credential index); each repository is attempted starting from
the current credential, advancing on authentication failures; a repository for
which no credential succeeds is recorded as failed and exhausts the candidate
list for all later repositories. Returns the successes (name paired with the
index of the credential that created it), the failed names, and the full
attempt trace. -/
def goRepos (ok : Nat → Nat → Bool) (ncreds : Nat) :
    List String → Nat → Nat →
    List (String × Nat) × List String × List (Nat × Nat)
  | [], _, _ => ([], [], [])
  | name :: rest, r, c =>
    let attempt := tryFromCred ok r c (ncreds - c)
    match attempt.1 with
    | some c' =>
      let out := goRepos ok ncreds rest (r + 1) c'
      ((name, c') :: out.1, out.2.1, attempt.2 ++ out.2.2)
    | none =>
      let out := goRepos ok ncreds rest (r + 1) ncreds
      (out.1, name :: out.2.1, attempt.2 ++ out.2.2)

/-- Modelled from the spec: `_make_github_repos` of `create_sibling_github.py`
is not in the excerpt. Per the spec's credential retry policy, a batch of
repositories is processed in input order against `ncreds` ordered candidate
credentials; an authentication failure advances to the next candidate and
retries the same repository; a repository exhausting all candidates is
recorded as failed; if every attempt across the batch failed, a single
aggregate hard error (`AccessDeniedError`, "Tried %d times ...") naming the
number of credentials tried is raised (`Except.error n`), otherwise the
per-repository results are returned. `ok c r` tells whether creating
repository `r` with credential `c` succeeds. -/
def makeGithubRepos (ok : Nat → Nat → Bool) (ncreds : Nat)
    (repos : List String) : Except Nat (List (String × Nat) × List String) :=
  let out := goRepos ok ncreds repos 0 0
  if repos ≠ [] ∧ out.1 = [] then
    Except.error ncreds
  else
    Except.ok (out.1, out.2.1)

/-- The ordered list of `(credential, repository)` creation attempts made by
`makeGithubRepos` on a batch. -/
def githubAttemptTrace (ok : Nat → Nat → Bool) (ncreds : Nat)
    (repos : List String) : List (Nat × Nat) :=
  (goRepos ok ncreds repos 0 0).2.2

/-! ## Dataset creation (`Create.__call__` in `create.py`) -/

/-- The Python value passed as `force`: `Create.__call__` first checks
`isinstance(force, bool)` and raises on anything else; `repr` stands for the
`%r` rendering of the offending value in the error message. -/
inductive ForceArg where
  | bool (b : Bool)
  | nonBool (repr : String)
deriving Repr, DecidableEq

/-- The Python value passed as `add_to_super`: `False` (default), `True`, or a
string such as `auto`. Python truthiness: `False` is falsy, `True` truthy, a
string truthy iff nonempty. -/
inductive AddToSuperArg where
  | ff
  | tt
  | str (s : String)
deriving Repr, DecidableEq

/-- The arguments of `Create.__call__`, with the same defaults. -/
structure CreateArgs where
  path : Option String := none
  force : ForceArg := ForceArg.bool false
  description : Option String := none
  add_to_super : AddToSuperArg := AddToSuperArg.ff
  name : Option String := none
  no_annex : Bool := false
  no_commit : Bool := false
  annex_version : Option Nat := none
  annex_backend : String := "MD5E"
  native_metadata_type : Option (List String) := none
  git_opts : Option (List String) := none
  annex_opts : Option (List String) := none
  annex_init_opts : Option (List String) := none
deriving Repr, DecidableEq

/-- The external world `Create.__call__` acts on: the working directory
(`getpwd()`), the filesystem (`dir p` is `none` when `p` is not a directory,
otherwise the `listdir` entries), superdataset discovery
(`Dataset.get_superdataset`), the initial contents of the dataset-local git
config (a multi-valued key/value list), and the identifier that would be
freshly generated for the dataset. -/
structure CreateEnv where
  cwd : String
  dir : String → Option (List String)
  superOf : String → Option String
  config : List (String × String)
  freshId : String

/-- Which kind of repository `Create.__call__` initialized: `GitRepo` for
`no_annex`, otherwise `AnnexRepo`. -/
inductive RepoKind where
  | git
  | annex
deriving Repr, DecidableEq

/-- The side effects of a run of `Create.__call__`: the repository
initialization (if any), the final config contents, the config keys that were
unset, the superdataset the new dataset was registered in (if any), whether
`.datalad` was staged, and whether the initial commit was made. -/
structure CreateEffects where
  repoInit : Option RepoKind
  config : List (String × String)
  configUnsets : List String
  registered : Option String
  staged : Bool
  committed : Bool
deriving Repr, DecidableEq

/-- Result and effects of a run of `Create.__call__`: either the `ValueError`
message raised, or the path of the created (returned) dataset. -/
structure CreateOutcome where
  result : Except String String
  effects : CreateEffects
deriving Repr

/-- The effects of a run that raised before doing anything: no repository, an
unchanged config, nothing unset, registered, staged or committed. -/
def noEffects (env : CreateEnv) : CreateEffects :=
  { repoInit := none, config := env.config, configUnsets := [],
    registered := none, staged := false, committed := false }

/-- `ds.path`: the `path` argument when truthy, else the working directory. -/
def dsPath (env : CreateEnv) (args : CreateArgs) : String :=
  match args.path with
  | none => env.cwd
  | some p => if p = "" then env.cwd else p

/-- `isdir(ds.path) and listdir(ds.path) != []`. -/
def nonEmptyDir (env : CreateEnv) (p : String) : Bool :=
  match env.dir p with
  | none => false
  | some entries => entries ≠ []

/-- Python truthiness of an optional string (e.g. `description`). -/
def truthyStr : Option String → Bool
  | none => false
  | some s => s ≠ ""

/-- Python truthiness of an optional list (e.g. `annex_opts`). -/
def truthyList : Option (List String) → Bool
  | none => false
  | some l => l ≠ []

/-- The config key recorded for the dataset identifier (`id_var`). -/
def id_var : String := "datalad.dataset.id"

/-- `ds.config.add(key, value)`: the config is multi-valued, adding appends an
entry. -/
def configAdd (cfg : List (String × String)) (key value : String) :
    List (String × String) :=
  cfg ++ [(key, value)]

/-- `ds.config.unset(key)`: removes every entry under `key`. -/
def configUnsetKey (cfg : List (String × String)) (key : String) :
    List (String × String) :=
  cfg.filter fun kv => kv.1 ≠ key

/-- `key in ds.config`. -/
def configHas (cfg : List (String × String)) (key : String) : Bool :=
  cfg.any fun kv => kv.1 = key

/-- Modelled from the spec: `Dataset.id` (in `dataset.py`, not in the
excerpt). Per the spec the dataset identifier is an uninterpreted string stored in
local configuration and generated when absent, so reading `ds.id` yields the
configured value when `datalad.dataset.id` is present and a freshly generated
identifier otherwise. -/
def datasetId (env : CreateEnv) (cfg : List (String × String)) : String :=
  match cfg.find? (fun kv => kv.1 = id_var) with
  | some kv => kv.2
  | none => env.freshId

/-- The config after the `native_metadata_type` labels have been appended
under `datalad.metadata.nativetype`. -/
def configAfterMetadata (env : CreateEnv) (args : CreateArgs) :
    List (String × String) :=
  match args.native_metadata_type with
  | none => env.config
  | some l =>
    l.foldl (fun c nt => configAdd c "datalad.metadata.nativetype" nt)
      env.config

/-- The config after `datalad.dataset.id` has been unset — which only happens
when the key is present (`if id_var in ds.config`). -/
def configAfterIdUnset (env : CreateEnv) (args : CreateArgs) :
    List (String × String) :=
  if configHas (configAfterMetadata env args) id_var then
    configUnsetKey (configAfterMetadata env args) id_var
  else
    configAfterMetadata env args

/-- The effects of the successful tail of `Create.__call__`: the repository is
initialized (plain git under `no_annex`, annex otherwise), each
`native_metadata_type` label is appended under `datalad.metadata.nativetype`,
`datalad.dataset.id` is unset if present and then set to `ds.id`, `.datalad`
is staged, and the initial commit is made unless `no_commit`. -/
def successEffects (env : CreateEnv) (args : CreateArgs)
    (registerIn : Option String) : CreateEffects :=
  { repoInit := some (if args.no_annex then RepoKind.git else RepoKind.annex),
    config := configAdd (configAfterIdUnset env args) id_var
      (datasetId env (configAfterIdUnset env args)),
    configUnsets :=
      if configHas (configAfterMetadata env args) id_var then [id_var] else [],
    registered := registerIn,
    staged := true,
    committed := !args.no_commit }

/-- The part of `Create.__call__` after the `add_to_super` block: the
`no_annex` compatibility checks (`description`, `annex_opts`,
`annex_init_opts` are annex-specific), then repository initialization, config
writes, staging and the initial commit. `registerIn` carries the superdataset
the result gets registered in when this runs on behalf of the delegation. -/
def createTail (env : CreateEnv) (args : CreateArgs) (path : String)
    (registerIn : Option String) : CreateOutcome :=
  if args.no_annex && truthyStr args.description then
    { result := Except.error ("Incompatible arguments: cannot specify " ++
        "description for annex repo and declaring no annex repo."),
      effects := noEffects env }
  else if args.no_annex && truthyList args.annex_opts then
    { result := Except.error ("Incompatible arguments: cannot specify " ++
        "options for annex and declaring no annex repo."),
      effects := noEffects env }
  else if args.no_annex && truthyList args.annex_init_opts then
    { result := Except.error ("Incompatible arguments: cannot specify " ++
        "options for annex init and declaring no annex repo."),
      effects := noEffects env }
  else
    { result := Except.ok path,
      effects := successEffects env args registerIn }

/-- The `add_to_super` block of `Create.__call__`. When `add_to_super` is
truthy and a superdataset is discovered, creation is delegated to
`sds.create_subdataset(ds.path, ...)`; `create_subdataset` is not in the
excerpt and is modelled from the spec: per the command documentation the
subdataset is prepared by the same creation sequence and then registered in
the discovered superdataset via a `git submodule add`, so the delegation runs
the same tail with the registration recorded. When no superdataset is found:
a boolean (necessarily `True` here) raises, the string `auto` silently
proceeds unregistered, and any other string raises. -/
def addToSuperStep (env : CreateEnv) (args : CreateArgs) (path : String) :
    CreateOutcome :=
  match args.add_to_super with
  | AddToSuperArg.ff => createTail env args path none
  | AddToSuperArg.tt =>
    match env.superOf path with
    | some sds => createTail env args path (some sds)
    | none =>
      { result := Except.error ("No super dataset found for dataset " ++ path),
        effects := noEffects env }
  | AddToSuperArg.str s =>
    if s = "" then
      createTail env args path none
    else
      match env.superOf path with
      | some sds => createTail env args path (some sds)
      | none =>
        if s = "auto" then
          createTail env args path none
        else
          { result := Except.error
              ("Do not know how to handle add_to_super=" ++ s),
            effects := noEffects env }

/-- `Create.__call__`: validate the `force` flag, resolve the target path,
reject a non-empty target directory unless forced, handle superdataset
registration, then run the creation tail. -/
def Create.call (env : CreateEnv) (args : CreateArgs) : CreateOutcome :=
  match args.force with
  | ForceArg.nonBool r =>
    { result := Except.error ("force should be bool, got " ++ r ++
        ".  Did you mean to provide a \x27path\x27?"),
      effects := noEffects env }
  | ForceArg.bool force =>
    if nonEmptyDir env (dsPath env args) && !force then
      { result := Except.error ("Cannot create dataset in directory " ++
          dsPath env args ++
          " (not empty). Use option \x27force\x27 in order to " ++
          "ignore this and enforce creation."),
        effects := noEffects env }
    else
      addToSuperStep env args (dsPath env args)

/-- The annex-specific arguments are compatible with `no_annex`: when
`no_annex` is set, none of `description`, `annex_opts`, `annex_init_opts` is
supplied (truthy). -/
def annexArgsOk (args : CreateArgs) : Prop :=
  args.no_annex = true →
    truthyStr args.description = false ∧
    truthyList args.annex_opts = false ∧
    truthyList args.annex_init_opts = false

/-- The `add_to_super` request can be satisfied: it is off, or a superdataset
is discoverable, or the mode is the string `auto` (or the falsy empty
string), which tolerates a missing superdataset. -/
def superOkFor (env : CreateEnv) (args : CreateArgs) : Prop :=
  match args.add_to_super with
  | AddToSuperArg.ff => True
  | AddToSuperArg.tt => (env.superOf (dsPath env args)).isSome = true
  | AddToSuperArg.str s =>
    s = "" ∨ s = "auto" ∨ (env.superOf (dsPath env args)).isSome = true

/-- The input-validation failures named by the spec: a non-bool `force` flag,
a non-empty target directory without `force`, or annex-specific options
(`description`, `annex_opts`, `annex_init_opts`) combined with `no_annex`. -/
def validationFailure (env : CreateEnv) (args : CreateArgs) : Prop :=
  (∃ r, args.force = ForceArg.nonBool r) ∨
  (args.force = ForceArg.bool false ∧
    nonEmptyDir env (dsPath env args) = true) ∨
  (args.no_annex = true ∧
    (truthyStr args.description = true ∨ truthyList args.annex_opts = true ∨
      truthyList args.annex_init_opts = true))

/-! ## Plugin dispatch (`Plugin.__call__` in `plugin/__init__.py`) -/

/-- A loaded plugin module (the value obtained from `import_module`). -/
structure PluginModule where
  modName : String
deriving Repr, DecidableEq

/-- The external world of `Plugin.__call__`: `importMod` is the python
`import_module` on `datalad.plugin.<plugin>` (an `Except.error` carries the
`exc_str` of the `ImportError`); `requireDataset` is
`require_dataset(dataset, check_installed=True, purpose=plugin)`, which
fails when no dataset can be resolved or it is not installed; `pluginCall` is
the `_datalad_plugin_call` entry point of the module, receiving the resolved
dataset and the `datalad_unparsed_args` argv array when the command line
supplied one. -/
structure PluginEnv (DS R : Type) where
  importMod : String → Except String PluginModule
  requireDataset : Option DS → Except String DS
  pluginCall : PluginModule → DS → Option (List String) → R

/-- The failures `Plugin.__call__` can raise: the `ValueError` for an
unresolvable plugin, or whatever `require_dataset` raises. -/
inductive PluginError where
  | valueError (msg : String)
  | datasetError (msg : String)
deriving Repr, DecidableEq

/-- Result of a run of `Plugin.__call__` — the returned
`(pluginmod, result)` pair or the raised error — together with whether
`require_dataset` was ever called and whether the plugin entry point was
ever invoked. -/
structure PluginOutcome (R : Type) where
  result : Except PluginError (PluginModule × Option R)
  datasetResolved : Bool
  entryInvoked : Bool

/-- `Plugin.__call__`: resolve the plugin module (raising `ValueError` naming
the plugin and the import error on failure), short-circuit with
`(pluginmod, None)` under `showpluginhelp`, otherwise resolve the dataset and
invoke the plugin entry point. -/
def Plugin.call {DS R : Type} (env : PluginEnv DS R) (plugin : String)
    (dataset : Option DS) (showpluginhelp : Bool)
    (unparsedArgs : Option (List String)) : PluginOutcome R :=
  match env.importMod plugin with
  | Except.error e =>
    { result := Except.error (PluginError.valueError
        ("cannot load plugin \x27" ++ plugin ++ "\x27: " ++ e)),
      datasetResolved := false, entryInvoked := false }
  | Except.ok pluginmod =>
    if showpluginhelp then
      { result := Except.ok (pluginmod, none),
        datasetResolved := false, entryInvoked := false }
    else
      match env.requireDataset dataset with
      | Except.error e =>
        { result := Except.error (PluginError.datasetError e),
          datasetResolved := true, entryInvoked := false }
      | Except.ok ds =>
        { result := Except.ok (pluginmod,
            some (env.pluginCall pluginmod ds unparsedArgs)),
          datasetResolved := true, entryInvoked := true }

/-! ## Concrete environments used by the witnesses -/

/-- A concrete environment for evaluating `Create.call`: every directory is
empty except the nonempty `/full`, no superdataset is discoverable anywhere,
and the config holds a stale dataset identifier `old-id`. -/
def testEnv : CreateEnv :=
  { cwd := "/cwd",
    dir := fun p => if p = "/full" then some ["junk"] else some [],
    superOf := fun _ => none,
    config := [("datalad.dataset.id", "old-id")],
    freshId := "fresh-id" }

/-- A concrete environment for evaluating `Plugin.call`: no plugin module can
be imported, and no dataset resolves. -/
def testPluginEnvBad : PluginEnv Unit Nat :=
  { importMod := fun p =>
      Except.error ("No module named \x27datalad.plugin." ++ p ++ "\x27"),
    requireDataset := fun _ => Except.error "no dataset found",
    pluginCall := fun _ _ _ => 0 }

/-- A concrete environment for evaluating `Plugin.call`: the module `export`
imports fine, but no dataset resolves (none is given or installed). -/
def testPluginEnvHelp : PluginEnv Unit Nat :=
  { importMod := fun p =>
      if p = "export" then Except.ok { modName := "export" }
      else Except.error ("No module named \x27datalad.plugin." ++ p ++ "\x27"),
    requireDataset := fun _ => Except.error "no dataset found",
    pluginCall := fun _ _ _ => 0 }

/-! ### Lemmas about the credential retry loop -/

/-- Dropping the 8 characters of the scheme from an `https://` URL. -/
theorem drop_https_scheme (rest : String) :
    ("https://" ++ rest).drop 8 = rest := by
  rw [String.drop_eq]
  have h : ("https://" ++ rest).data = "https://".data ++ rest.data := rfl
  rw [h]
  have h8 : ("https://".data).length = 8 := by decide
  rw [← h8, List.drop_left]

/-- When every credential fails for repository `r`, the retry over candidates
finds no credential. -/
theorem tryFromCred_none (ok : Nat → Nat → Bool) (r : Nat)
    (h : ∀ c, ok c r = false) :
    ∀ fuel c, (tryFromCred ok r c fuel).1 = none := by
  intro fuel
  induction fuel with
  | zero => intro c; rfl
  | succ n ih =>
    intro c
    simp only [tryFromCred, h c, Bool.false_eq_true, if_false]
    exact ih (c + 1)

/-- When every credential fails for every repository, no repository in the
batch succeeds. -/
theorem goRepos_allFail (ok : Nat → Nat → Bool) (ncreds : Nat)
    (h : ∀ c r, ok c r = false) :
    ∀ l r c, (goRepos ok ncreds l r c).1 = [] := by
  intro l
  induction l with
  | nil => intro r c; rfl
  | cons name rest ih =>
    intro r c
    have hnone := tryFromCred_none ok r (fun c => h c r) (ncreds - c) c
    simp only [goRepos, hnone]
    exact ih (r + 1) ncreds

/-- If the credentials before index `K` fail for repository `r` and
credential `K` succeeds, the retry starting at `c ≤ K` with enough candidates
left settles on `K`, after attempting exactly the credentials `c, …, K` on
repository `r`. -/
theorem tryFromCred_finds (ok : Nat → Nat → Bool) (r K : Nat)
    (hsucc : ok K r = true) (hfail : ∀ c, c < K → ok c r = false) :
    ∀ fuel c, c ≤ K → K < c + fuel →
      tryFromCred ok r c fuel =
        (some K, (List.range' c (K + 1 - c)).map fun cr => (cr, r)) := by
  intro fuel
  induction fuel with
  | zero => intro c hcK hKf; omega
  | succ n ih =>
    intro c hcK hKf
    rcases Nat.lt_or_ge c K with hlt | hge
    · have hc : ok c r = false := hfail c hlt
      have hrec := ih (c + 1) hlt (by omega)
      simp only [tryFromCred, hc, Bool.false_eq_true, if_false, hrec]
      have hr : List.range' c (K + 1 - c) = c :: List.range' (c + 1) (K - c) := by
        have : K + 1 - c = (K - c) + 1 := by omega
        rw [this, List.range'_succ]
      have : K + 1 - (c + 1) = K - c := by omega
      rw [hr, this]
      simp
    · have hcK' : c = K := by omega
      subst hcK'
      simp only [tryFromCred, hsucc, if_true]
      have hc1 : c + 1 - c = 1 := by omega
      rw [hc1]
      simp

/-- Once a credential `K` succeeds for every repository, the remaining batch
is processed with exactly one attempt per repository, all using credential
`K`, and no repository fails. -/
theorem goRepos_at_success (ok : Nat → Nat → Bool) (ncreds K : Nat)
    (hK : K < ncreds) (hsucc : ∀ r, ok K r = true) :
    ∀ l r, goRepos ok ncreds l r K =
      (l.map fun name => (name, K), [],
        (List.range' r l.length).map fun rr => (K, rr)) := by
  intro l
  induction l with
  | nil => intro r; rfl
  | cons name rest ih =>
    intro r
    obtain ⟨m, hm⟩ : ∃ m, ncreds - K = m + 1 := ⟨ncreds - K - 1, by omega⟩
    have htry : tryFromCred ok r K (ncreds - K) = (some K, [(K, r)]) := by
      rw [hm]
      simp [tryFromCred, hsucc r]
    simp only [goRepos, htry, ih (r + 1)]
    simp [List.range'_succ]

/-- In the scenario of the claims the success pattern is uniform: every credential
before index `K` fails for every repository and credential `K` succeeds for
every repository. -/
def uniformPattern (ok : Nat → Nat → Bool) (K : Nat) : Prop :=
  (∀ c r, c < K → ok c r = false) ∧ (∀ r, ok K r = true)

/-- C1 -- With `K` failing credentials followed by a succeeding one, every
repository of a nonempty batch is created with credential index `K` (the
`(K+1)`-th credential), none fails, and the attempt trace is: the failed
credentials `0, …, K-1` each retried on the *same* first repository, then the
successful credential `K` on the first repository, then exactly one attempt —
with credential `K`, never an earlier one — for each later repository. -/
theorem make_github_repos_first_working_cred (ok : Nat → Nat → Bool)
    (ncreds K : Nat) (repos : List String) (hK : K < ncreds)
    (hpat : uniformPattern ok K) (hne : repos ≠ []) :
    makeGithubRepos ok ncreds repos =
      Except.ok (repos.map fun name => (name, K), []) ∧
    githubAttemptTrace ok ncreds repos =
      ((List.range (K + 1)).map fun c => (c, 0)) ++
      ((List.range (repos.length - 1)).map fun i => (K, i + 1)) := by
  obtain ⟨hfail, hsucc⟩ := hpat
  obtain ⟨name, rest, rfl⟩ : ∃ name rest, repos = name :: rest := by
    cases repos with
    | nil => exact absurd rfl hne
    | cons a l => exact ⟨a, l, rfl⟩
  have htry : tryFromCred ok 0 0 (ncreds - 0) =
      (some K, (List.range' 0 (K + 1)).map fun cr => (cr, 0)) := by
    have := tryFromCred_finds ok 0 K (hsucc 0) (fun c hc => hfail c 0 hc)
      (ncreds - 0) 0 (Nat.zero_le K) (by omega)
    simpa using this
  have hgo := goRepos_at_success ok ncreds K hK hsucc rest 1
  have hmain : goRepos ok ncreds (name :: rest) 0 0 =
      ((name, K) :: rest.map (fun n => (n, K)), [],
        ((List.range' 0 (K + 1)).map fun cr => (cr, 0)) ++
        ((List.range' 1 rest.length).map fun rr => (K, rr))) := by
    simp only [goRepos, htry, hgo]
  constructor
  · simp [makeGithubRepos, hmain]
  · simp only [githubAttemptTrace, hmain]
    have h0 : List.range' 0 (K + 1) = List.range (K + 1) := by
      rw [List.range'_eq_map_range]
      simp
    have h1 : (List.range' 1 rest.length).map (fun rr => (K, rr)) =
        (List.range rest.length).map fun i => (K, i + 1) := by
      rw [List.range'_eq_map_range, List.map_map]
      exact List.map_congr_left fun i _ => by simp [Nat.add_comm]
    simp [h0, h1]

/-- Witness for C1: the scenario of `test__make_github_repos` — three
credentials, the first one failing — creates both repositories with the
second credential (index 1), retrying repository 0 after the failure of
credential 0 and attempting each repository exactly once with credential 1
afterwards. -/
theorem make_github_repos_first_working_cred_witness :
    makeGithubRepos (fun c _ => decide (c ≠ 0)) 3 ["fakeds1", "fakeds2"] =
      Except.ok ([("fakeds1", 1), ("fakeds2", 1)], []) ∧
    githubAttemptTrace (fun c _ => decide (c ≠ 0)) 3 ["fakeds1", "fakeds2"] =
      [(0, 0), (1, 0), (1, 1)] := by
  have h := make_github_repos_first_working_cred (fun c _ => decide (c ≠ 0))
    3 1 ["fakeds1", "fakeds2"] (by omega)
    ⟨fun c r hc => by
      have hc0 : c = 0 := by omega
      subst hc0
      rfl, fun r => rfl⟩ (by simp)
  exact ⟨h.1, h.2⟩

/-- C2 -- When every credential fails with an authentication error for every
repository of a nonempty batch, `_make_github_repos` does not return a
per-repository result list but raises the single aggregate
`AccessDeniedError`, whose message reports exactly `ncreds`, the number of
credentials tried. -/
theorem make_github_repos_all_fail (ok : Nat → Nat → Bool) (ncreds : Nat)
    (repos : List String) (hne : repos ≠ [])
    (hfail : ∀ c r, ok c r = false) :
    makeGithubRepos ok ncreds repos = Except.error ncreds := by
  have h := goRepos_allFail ok ncreds hfail repos 0 0
  simp [makeGithubRepos, h, hne]

/-- Witness for C2: the all-failing scenario of `test__make_github_repos` —
three credentials, all failing for both repositories — raises the aggregate
error reporting 3 credentials tried. -/
theorem make_github_repos_all_fail_witness :
    makeGithubRepos (fun _ _ => false) 3 ["fakeds1", "fakeds2"] =
      Except.error 3 :=
  make_github_repos_all_fail (fun _ _ => false) 3 ["fakeds1", "fakeds2"]
    (by simp) (fun _ _ => rfl)

/-- C9 -- `get_repo_url` selects by protocol: for `ssh` it returns the SSH
URL unchanged whatever the username argument is; for `https` it returns the
HTTPS clone URL, unmodified when no username is given, and with the username
inserted right after the `https://` scheme when one is given. -/
theorem get_repo_url_selects_by_protocol (repo : HostedRepo) (rest : String)
    (hurl : repo.clone_url = "https://" ++ rest) :
    (∀ login, get_repo_url repo "ssh" login = repo.ssh_url) ∧
    get_repo_url repo "https" none = repo.clone_url ∧
    (∀ user, get_repo_url repo "https" (some user) =
      "https://" ++ user ++ "@" ++ rest) := by
  refine ⟨fun login => rfl, rfl, fun user => ?_⟩
  simp only [get_repo_url, hurl, drop_https_scheme]
  rfl

/-- Witness for C9: the concrete URLs of `test_get_repo_url`. -/
theorem get_repo_url_selects_by_protocol_witness :
    (∀ login,
      get_repo_url ⟨"https://github.com/user1/repo", "git@github.com/user1/repo1"⟩
        "ssh" login = "git@github.com/user1/repo1") ∧
    get_repo_url ⟨"https://github.com/user1/repo", "git@github.com/user1/repo1"⟩
      "https" none = "https://github.com/user1/repo" ∧
    get_repo_url ⟨"https://github.com/user1/repo", "git@github.com/user1/repo1"⟩
      "https" (some "user2") = "https://user2@github.com/user1/repo" := by
  have h := get_repo_url_selects_by_protocol
    ⟨"https://github.com/user1/repo", "git@github.com/user1/repo1"⟩
    "github.com/user1/repo" rfl
  exact ⟨h.1, h.2.1, h.2.2 "user2"⟩

/-! ### Lemmas about dataset creation -/

/-- The creation tail either raises with no side effects or succeeds with the
success effects. -/
theorem createTail_shape (env : CreateEnv) (args : CreateArgs) (path : String)
    (reg : Option String) :
    (∃ msg, createTail env args path reg =
      { result := Except.error msg, effects := noEffects env }) ∨
    createTail env args path reg =
      { result := Except.ok path, effects := successEffects env args reg } := by
  unfold createTail
  by_cases h1 : (args.no_annex && truthyStr args.description) = true
  · exact Or.inl ⟨_, by rw [if_pos h1]⟩
  · by_cases h2 : (args.no_annex && truthyList args.annex_opts) = true
    · exact Or.inl ⟨_, by rw [if_neg h1, if_pos h2]⟩
    · by_cases h3 : (args.no_annex && truthyList args.annex_init_opts) = true
      · exact Or.inl ⟨_, by rw [if_neg h1, if_neg h2, if_pos h3]⟩
      · exact Or.inr (by rw [if_neg h1, if_neg h2, if_neg h3])

/-- Under compatible annex arguments the creation tail succeeds. -/
theorem createTail_ok (env : CreateEnv) (args : CreateArgs) (path : String)
    (reg : Option String) (h : annexArgsOk args) :
    createTail env args path reg =
      { result := Except.ok path, effects := successEffects env args reg } := by
  unfold createTail
  cases hna : args.no_annex with
  | false => simp [hna]
  | true =>
    obtain ⟨hd, ho, hi⟩ := h hna
    simp [hna, hd, ho, hi]

/-- With `no_annex` and a truthy annex-specific option, the creation tail
raises one of the three incompatibility errors, with no side effects. -/
theorem createTail_annex_error (env : CreateEnv) (args : CreateArgs)
    (path : String) (reg : Option String) (hna : args.no_annex = true)
    (hopt : truthyStr args.description = true ∨
      truthyList args.annex_opts = true ∨
      truthyList args.annex_init_opts = true) :
    ∃ msg, createTail env args path reg =
      { result := Except.error msg, effects := noEffects env } := by
  unfold createTail
  rcases hopt with hd | ho | hi
  · exact ⟨_, by rw [if_pos (by simp [hna, hd])]⟩
  · by_cases h1 : (args.no_annex && truthyStr args.description) = true
    · exact ⟨_, by rw [if_pos h1]⟩
    · exact ⟨_, by rw [if_neg h1, if_pos (by simp [hna, ho])]⟩
  · by_cases h1 : (args.no_annex && truthyStr args.description) = true
    · exact ⟨_, by rw [if_pos h1]⟩
    · by_cases h2 : (args.no_annex && truthyList args.annex_opts) = true
      · exact ⟨_, by rw [if_neg h1, if_pos h2]⟩
      · exact ⟨_, by rw [if_neg h1, if_neg h2, if_pos (by simp [hna, hi])]⟩

/-- The `add_to_super` block either raises with no side effects or hands over
to the creation tail with some registration target. -/
theorem addToSuperStep_shape (env : CreateEnv) (args : CreateArgs)
    (path : String) :
    (∃ msg, addToSuperStep env args path =
      { result := Except.error msg, effects := noEffects env }) ∨
    (∃ reg, addToSuperStep env args path = createTail env args path reg) := by
  cases hats : args.add_to_super with
  | ff => exact Or.inr ⟨none, by simp only [addToSuperStep, hats]⟩
  | tt =>
    cases hsup : env.superOf path with
    | some sds =>
      exact Or.inr ⟨some sds, by simp only [addToSuperStep, hats, hsup]⟩
    | none => exact Or.inl ⟨_, by simp only [addToSuperStep, hats, hsup]; rfl⟩
  | str s =>
    by_cases hs : s = ""
    · exact Or.inr ⟨none, by simp only [addToSuperStep, hats]; rw [if_pos hs]⟩
    · cases hsup : env.superOf path with
      | some sds =>
        exact Or.inr ⟨some sds, by
          simp only [addToSuperStep, hats, hsup]; rw [if_neg hs]⟩
      | none =>
        by_cases ha : s = "auto"
        · exact Or.inr ⟨none, by
            simp only [addToSuperStep, hats, hsup]; rw [if_neg hs, if_pos ha]⟩
        · exact Or.inl ⟨_, by
            simp only [addToSuperStep, hats, hsup]; rw [if_neg hs, if_neg ha]⟩

/-- A satisfiable `add_to_super` request with compatible annex arguments hands
over to a succeeding creation tail. -/
theorem addToSuperStep_ok (env : CreateEnv) (args : CreateArgs)
    (hannex : annexArgsOk args) (hsuper : superOkFor env args) :
    ∃ reg, addToSuperStep env args (dsPath env args) =
      { result := Except.ok (dsPath env args),
        effects := successEffects env args reg } := by
  cases hats : args.add_to_super with
  | ff =>
    refine ⟨none, ?_⟩
    simp only [addToSuperStep, hats]
    exact createTail_ok env args _ none hannex
  | tt =>
    simp only [superOkFor, hats] at hsuper
    obtain ⟨sds, hsds⟩ := Option.isSome_iff_exists.mp hsuper
    refine ⟨some sds, ?_⟩
    simp only [addToSuperStep, hats, hsds]
    exact createTail_ok env args _ (some sds) hannex
  | str s =>
    simp only [superOkFor, hats] at hsuper
    by_cases hs : s = ""
    · refine ⟨none, ?_⟩
      simp only [addToSuperStep, hats]
      rw [if_pos hs]
      exact createTail_ok env args _ none hannex
    · cases hsup : env.superOf (dsPath env args) with
      | some sds =>
        refine ⟨some sds, ?_⟩
        simp only [addToSuperStep, hats, hsup]
        rw [if_neg hs]
        exact createTail_ok env args _ (some sds) hannex
      | none =>
        rcases hsuper with h | h | h
        · exact absurd h hs
        · refine ⟨none, ?_⟩
          simp only [addToSuperStep, hats, hsup]
          rw [if_neg hs, if_pos h]
          exact createTail_ok env args _ none hannex
        · rw [hsup] at h
          cases h

/-- `Create.__call__` either raises with no side effects or returns the
dataset path with the success effects. -/
theorem call_shape (env : CreateEnv) (args : CreateArgs) :
    (∃ msg, Create.call env args =
      { result := Except.error msg, effects := noEffects env }) ∨
    (∃ reg, Create.call env args =
      { result := Except.ok (dsPath env args),
        effects := successEffects env args reg }) := by
  cases hf : args.force with
  | nonBool r => exact Or.inl ⟨_, by simp only [Create.call, hf]; rfl⟩
  | bool b =>
    by_cases hdir : (nonEmptyDir env (dsPath env args) && !b) = true
    · exact Or.inl ⟨_, by simp only [Create.call, hf]; rw [if_pos hdir]⟩
    · have hcall : Create.call env args =
          addToSuperStep env args (dsPath env args) := by
        simp only [Create.call, hf]
        rw [if_neg hdir]
      rcases addToSuperStep_shape env args (dsPath env args) with
        ⟨msg, hstep⟩ | ⟨reg, hstep⟩
      · exact Or.inl ⟨msg, hcall.trans hstep⟩
      · rcases createTail_shape env args (dsPath env args) reg with
          ⟨msg, htail⟩ | htail
        · exact Or.inl ⟨msg, (hcall.trans hstep).trans htail⟩
        · exact Or.inr ⟨reg, (hcall.trans hstep).trans htail⟩

/-- Any input-validation failure makes `Create.__call__` raise with no side
effects. -/
theorem validation_error_aux (env : CreateEnv) (args : CreateArgs)
    (h : validationFailure env args) :
    ∃ msg, Create.call env args =
      { result := Except.error msg, effects := noEffects env } := by
  rcases h with ⟨r, hf⟩ | ⟨hf, hdir⟩ | ⟨hna, hopt⟩
  · exact ⟨_, by simp only [Create.call, hf]; rfl⟩
  · exact ⟨_, by simp only [Create.call, hf]; rw [if_pos (by simp [hdir])]⟩
  · cases hf : args.force with
    | nonBool r => exact ⟨_, by simp only [Create.call, hf]; rfl⟩
    | bool b =>
      by_cases hdir : (nonEmptyDir env (dsPath env args) && !b) = true
      · exact ⟨_, by simp only [Create.call, hf]; rw [if_pos hdir]⟩
      · rcases addToSuperStep_shape env args (dsPath env args) with
          ⟨msg, hstep⟩ | ⟨reg, hstep⟩
        · exact ⟨msg, by
            simp only [Create.call, hf]; rw [if_neg hdir, hstep]⟩
        · obtain ⟨msg, htail⟩ :=
            createTail_annex_error env args (dsPath env args) reg hna hopt
          exact ⟨msg, by
            simp only [Create.call, hf]; rw [if_neg hdir, hstep, htail]⟩

/-! ### Lemmas about the config store -/

/-- Adding an entry under a different key leaves the entries of `k` alone. -/
theorem filter_configAdd_of_ne (cfg : List (String × String))
    (key value k : String) (h : key ≠ k) :
    ((configAdd cfg key value).filter fun kv => kv.1 = k) =
      cfg.filter fun kv => kv.1 = k := by
  unfold configAdd
  rw [List.filter_append]
  have hone : ([(key, value)].filter fun kv : String × String => kv.1 = k) = [] := by
    simp [h]
  rw [hone, List.append_nil]

/-- Adding an entry under a different key does not affect membership of `k`. -/
theorem configHas_configAdd_of_ne (cfg : List (String × String))
    (key value k : String) (h : key ≠ k) :
    configHas (configAdd cfg key value) k = configHas cfg k := by
  unfold configHas configAdd
  rw [List.any_append]
  simp [h]

/-- The `native_metadata_type` additions leave the `datalad.dataset.id`
entries alone. -/
theorem filter_id_configAfterMetadata (env : CreateEnv) (args : CreateArgs) :
    ((configAfterMetadata env args).filter fun kv => kv.1 = id_var) =
      env.config.filter fun kv => kv.1 = id_var := by
  unfold configAfterMetadata
  cases args.native_metadata_type with
  | none => rfl
  | some l =>
    suffices h : ∀ (l : List String) (cfg : List (String × String)),
        ((l.foldl (fun c nt => configAdd c "datalad.metadata.nativetype" nt)
            cfg).filter fun kv => kv.1 = id_var) =
          cfg.filter fun kv => kv.1 = id_var from h l env.config
    intro l
    induction l with
    | nil => intro cfg; rfl
    | cons nt rest ih =>
      intro cfg
      rw [List.foldl_cons, ih,
        filter_configAdd_of_ne cfg "datalad.metadata.nativetype" nt id_var
          (by decide)]

/-- The `native_metadata_type` additions do not affect the presence of
`datalad.dataset.id`. -/
theorem configHas_id_configAfterMetadata (env : CreateEnv) (args : CreateArgs) :
    configHas (configAfterMetadata env args) id_var =
      configHas env.config id_var := by
  unfold configAfterMetadata
  cases args.native_metadata_type with
  | none => rfl
  | some l =>
    suffices h : ∀ (l : List String) (cfg : List (String × String)),
        configHas (l.foldl (fun c nt => configAdd c "datalad.metadata.nativetype" nt)
            cfg) id_var = configHas cfg id_var from h l env.config
    intro l
    induction l with
    | nil => intro cfg; rfl
    | cons nt rest ih =>
      intro cfg
      rw [List.foldl_cons, ih,
        configHas_configAdd_of_ne cfg "datalad.metadata.nativetype" nt id_var
          (by decide)]

/-- Unsetting a key removes all its entries. -/
theorem filter_configUnset_self (cfg : List (String × String)) (k : String) :
    ((configUnsetKey cfg k).filter fun kv => kv.1 = k) = [] := by
  unfold configUnsetKey
  rw [List.filter_filter]
  rw [List.filter_eq_nil_iff]
  intro a _
  by_cases h : a.1 = k <;> simp [h]

/-- An absent key has no entries. -/
theorem filter_eq_nil_of_configHas_false (cfg : List (String × String))
    (k : String) (h : configHas cfg k = false) :
    (cfg.filter fun kv => kv.1 = k) = [] := by
  unfold configHas at h
  rw [List.filter_eq_nil_iff]
  intro a ha
  have := List.any_eq_false.mp h a ha
  simpa using this

/-- After the conditional unset, no `datalad.dataset.id` entry is left. -/
theorem filter_id_configAfterIdUnset (env : CreateEnv) (args : CreateArgs) :
    ((configAfterIdUnset env args).filter fun kv => kv.1 = id_var) = [] := by
  unfold configAfterIdUnset
  by_cases h : configHas (configAfterMetadata env args) id_var = true
  · rw [if_pos h]
    exact filter_configUnset_self _ id_var
  · rw [if_neg h]
    exact filter_eq_nil_of_configHas_false _ id_var (by
      cases hb : configHas (configAfterMetadata env args) id_var
      · rfl
      · exact absurd hb h)

/-- A key with no entries yields no `find?` hit. -/
theorem find?_eq_none_of_filter_nil (cfg : List (String × String)) (k : String)
    (h : (cfg.filter fun kv => kv.1 = k) = []) :
    cfg.find? (fun kv => kv.1 = k) = none := by
  rw [List.find?_eq_none]
  intro x hx
  have := List.filter_eq_nil_iff.mp h x hx
  simpa using this

/-- The identifier recorded on a successful run is the freshly generated one:
the unset happened before `ds.id` was read. -/
theorem datasetId_after_unset (env : CreateEnv) (args : CreateArgs) :
    datasetId env (configAfterIdUnset env args) = env.freshId := by
  unfold datasetId
  rw [find?_eq_none_of_filter_nil _ id_var (filter_id_configAfterIdUnset env args)]

/-- On the success effects, the config holds exactly one entry under
`datalad.dataset.id`, carrying the freshly generated identifier. -/
theorem successEffects_id_filter (env : CreateEnv) (args : CreateArgs)
    (reg : Option String) :
    ((successEffects env args reg).config.filter fun kv => kv.1 = id_var) =
      [(id_var, env.freshId)] := by
  unfold successEffects
  rw [datasetId_after_unset]
  unfold configAdd
  rw [List.filter_append, filter_id_configAfterIdUnset]
  simp

/-! ### The dataset-creation claims -/

/-- C3 counterexample: on the existing non-empty directory `/full`, a call
with `force=True` but `no_annex=True` together with a description raises the
incompatible-arguments `ValueError` instead of succeeding, refuting "with
force=True the call always succeeds". -/
theorem create_force_true_counterexample :
    (Create.call testEnv
      { path := some "/full", force := ForceArg.bool true,
        no_annex := true, description := some "some description" }).result =
      Except.error ("Incompatible arguments: cannot specify " ++
        "description for annex repo and declaring no annex repo.") := rfl

/-- C3 (amended) -- For a target path that is an existing non-empty
directory: with `force=False` the call always fails with the non-empty
directory `ValueError`, before any repository is initialized; with
`force=True` the non-empty-directory check never causes a failure, and the
call succeeds and returns the created dataset provided the remaining
arguments pass validation (compatible annex arguments and a satisfiable
`add_to_super` request). -/
theorem create_nonempty_dir_behavior (env : CreateEnv) (args : CreateArgs)
    (hdir : nonEmptyDir env (dsPath env args) = true) :
    (args.force = ForceArg.bool false →
      Create.call env args =
        { result := Except.error ("Cannot create dataset in directory " ++
            dsPath env args ++
            " (not empty). Use option \x27force\x27 in order to " ++
            "ignore this and enforce creation."),
          effects := noEffects env }) ∧
    (args.force = ForceArg.bool true → annexArgsOk args →
      superOkFor env args →
      ∃ reg, Create.call env args =
        { result := Except.ok (dsPath env args),
          effects := successEffects env args reg }) := by
  constructor
  · intro hf
    simp only [Create.call, hf]
    rw [if_pos (by simp [hdir])]
  · intro hf hannex hsuper
    obtain ⟨reg, hstep⟩ := addToSuperStep_ok env args hannex hsuper
    refine ⟨reg, ?_⟩
    simp only [Create.call, hf]
    rw [if_neg (by simp), hstep]

/-- Witness for C3: on the non-empty `/full`, the call without `force` raises
the non-empty-directory error, and with `force` (and otherwise default
arguments) returns the created dataset. -/
theorem create_nonempty_dir_behavior_witness :
    (Create.call testEnv { path := some "/full" }).result =
      Except.error ("Cannot create dataset in directory " ++ "/full" ++
        " (not empty). Use option \x27force\x27 in order to " ++
        "ignore this and enforce creation.") ∧
    (Create.call testEnv
      { path := some "/full", force := ForceArg.bool true }).result =
      Except.ok "/full" := by
  constructor
  · have h := (create_nonempty_dir_behavior testEnv
      { path := some "/full" } rfl).1 rfl
    rw [h]
    rfl
  · have h := (create_nonempty_dir_behavior testEnv
      { path := some "/full", force := ForceArg.bool true } rfl).2 rfl
      (fun hna => by cases hna) trivial
    obtain ⟨reg, hr⟩ := h
    rw [hr]
    rfl

/-- C4 -- Supplying a (truthy) description together with `no_annex` always
makes `Create.__call__` fail with a `ValueError`, whatever the other
arguments and the environment are: every path through the command — bad
`force`, blocked directory, failing or delegated superdataset handling, or
the creation tail itself — raises. -/
theorem create_description_no_annex_fails (env : CreateEnv)
    (args : CreateArgs) (hna : args.no_annex = true)
    (hd : truthyStr args.description = true) :
    ∃ msg, (Create.call env args).result = Except.error msg := by
  obtain ⟨msg, h⟩ := validation_error_aux env args
    (Or.inr (Or.inr ⟨hna, Or.inl hd⟩))
  exact ⟨msg, by rw [h]⟩

/-- Witness for C4: a creation with `no_annex` and a description on an empty
target directory fails. -/
theorem create_description_no_annex_fails_witness :
    ∃ msg, (Create.call testEnv
      { path := some "/ds", no_annex := true,
        description := some "d" }).result = Except.error msg :=
  create_description_no_annex_fails testEnv
    { path := some "/ds", no_annex := true, description := some "d" }
    rfl rfl

/-- C5 -- Whenever `Create.__call__` fails input validation — a non-bool
`force` flag, a non-empty target directory without `force`, or annex-specific
options (`description`, `annex_opts`, `annex_init_opts`) combined with
`no_annex` — it raises a `ValueError` and performs no side effects: no
repository is initialized, the config is untouched (nothing written or
unset), nothing is registered, staged or committed. -/
theorem create_validation_failure_no_side_effects (env : CreateEnv)
    (args : CreateArgs) (h : validationFailure env args) :
    ∃ msg, Create.call env args =
      { result := Except.error msg, effects := noEffects env } :=
  validation_error_aux env args h

/-- Witness for C5: the three failure modes at concrete inputs — a non-bool
`force`, the non-empty `/full` without `force`, and `annex_opts` with
`no_annex` — all raise with no side effects. -/
theorem create_validation_failure_no_side_effects_witness :
    (∃ msg, Create.call testEnv { force := ForceArg.nonBool "/ds2" } =
      { result := Except.error msg, effects := noEffects testEnv }) ∧
    (∃ msg, Create.call testEnv { path := some "/full" } =
      { result := Except.error msg, effects := noEffects testEnv }) ∧
    (∃ msg, Create.call testEnv
        { path := some "/ds", no_annex := true,
          annex_opts := some ["--fast"] } =
      { result := Except.error msg, effects := noEffects testEnv }) := by
  refine ⟨?_, ?_, ?_⟩
  · exact create_validation_failure_no_side_effects testEnv _
      (Or.inl ⟨"/ds2", rfl⟩)
  · exact create_validation_failure_no_side_effects testEnv _
      (Or.inr (Or.inl ⟨rfl, rfl⟩))
  · exact create_validation_failure_no_side_effects testEnv _
      (Or.inr (Or.inr ⟨rfl, Or.inr (Or.inl rfl)⟩))

/-- C6 -- On every successful run of `Create.__call__`, the key
`datalad.dataset.id` is unset exactly when it was already present and is then
set exactly once, and its final (unique) value is the freshly generated
identifier, so an identifier previously stored at the same path is never
reused (the unset happens before `ds.id` is read). -/
theorem create_resets_dataset_id (env : CreateEnv) (args : CreateArgs)
    (p : String) (hok : (Create.call env args).result = Except.ok p) :
    ((Create.call env args).effects.config.filter fun kv => kv.1 = id_var) =
      [(id_var, env.freshId)] ∧
    (Create.call env args).effects.configUnsets =
      (if configHas env.config id_var then [id_var] else []) ∧
    ∀ v, (id_var, v) ∈ env.config → env.freshId ≠ v →
      (id_var, v) ∉ (Create.call env args).effects.config := by
  rcases call_shape env args with ⟨msg, hcall⟩ | ⟨reg, hcall⟩
  · rw [hcall] at hok
    cases hok
  · rw [hcall]
    refine ⟨successEffects_id_filter env args reg, ?_, ?_⟩
    · show (successEffects env args reg).configUnsets = _
      unfold successEffects
      rw [configHas_id_configAfterMetadata]
    · intro v _ hvne hvin
      have hmem : (id_var, v) ∈
          ((successEffects env args reg).config.filter
            fun kv => kv.1 = id_var) := by
        rw [List.mem_filter]
        exact ⟨hvin, by simp⟩
      rw [successEffects_id_filter env args reg] at hmem
      simp only [List.mem_singleton, Prod.mk.injEq, true_and] at hmem
      exact hvne hmem.symm

/-- Witness for C6: re-creating over the stale `old-id` in the config unsets
the key and records the fresh identifier exactly once. -/
theorem create_resets_dataset_id_witness :
    (Create.call testEnv { path := some "/ds" }).result = Except.ok "/ds" ∧
    ((Create.call testEnv { path := some "/ds" }).effects.config.filter
      fun kv => kv.1 = id_var) = [(id_var, testEnv.freshId)] := by
  refine ⟨rfl, ?_⟩
  exact (create_resets_dataset_id testEnv { path := some "/ds" } "/ds" rfl).1

/-- C7 -- When no superdataset is discoverable for the target path and the
earlier checks pass: `add_to_super=True` makes the call fail with the
no-superdataset `ValueError` (and no side effects), while
`add_to_super=\x27auto\x27` silently proceeds — the call succeeds (under
otherwise valid arguments) and creates the dataset with no superdataset
registration recorded. -/
theorem create_missing_superdataset (env : CreateEnv) (args : CreateArgs)
    (hsuper : env.superOf (dsPath env args) = none) :
    (args.add_to_super = AddToSuperArg.tt →
      ∀ b, args.force = ForceArg.bool b →
        (nonEmptyDir env (dsPath env args) && !b) = false →
        Create.call env args =
          { result := Except.error
              ("No super dataset found for dataset " ++ dsPath env args),
            effects := noEffects env }) ∧
    (args.add_to_super = AddToSuperArg.str "auto" →
      ∀ b, args.force = ForceArg.bool b →
        (nonEmptyDir env (dsPath env args) && !b) = false →
        annexArgsOk args →
        Create.call env args =
          { result := Except.ok (dsPath env args),
            effects := successEffects env args none } ∧
        (Create.call env args).effects.registered = none) := by
  constructor
  · intro hats b hf hdir
    simp only [Create.call, hf]
    rw [if_neg (by simp [hdir])]
    simp only [addToSuperStep, hats, hsuper]
  · intro hats b hf hdir hannex
    have hcall : Create.call env args =
        createTail env args (dsPath env args) none := by
      simp only [Create.call, hf]
      rw [if_neg (by simp [hdir])]
      simp only [addToSuperStep, hats, hsuper]
      simp
    rw [hcall, createTail_ok env args _ none hannex]
    exact ⟨rfl, rfl⟩

/-- Witness for C7: in an environment with no superdataset anywhere,
`add_to_super=True` fails while `add_to_super=\x27auto\x27` creates the
dataset unregistered. -/
theorem create_missing_superdataset_witness :
    (Create.call testEnv
        { path := some "/ds", add_to_super := AddToSuperArg.tt }).result =
      Except.error ("No super dataset found for dataset " ++ "/ds") ∧
    (Create.call testEnv
        { path := some "/ds",
          add_to_super := AddToSuperArg.str "auto" }).result =
      Except.ok "/ds" ∧
    (Create.call testEnv
        { path := some "/ds",
          add_to_super := AddToSuperArg.str "auto" }).effects.registered =
      none := by
  refine ⟨?_, ?_, ?_⟩
  · have h := (create_missing_superdataset testEnv
      { path := some "/ds", add_to_super := AddToSuperArg.tt } rfl).1
      rfl false rfl rfl
    rw [h]
    rfl
  · have h := ((create_missing_superdataset testEnv
      { path := some "/ds", add_to_super := AddToSuperArg.str "auto" }
      rfl).2 rfl false rfl rfl (fun hna => by cases hna)).1
    rw [h]
    rfl
  · exact ((create_missing_superdataset testEnv
      { path := some "/ds", add_to_super := AddToSuperArg.str "auto" }
      rfl).2 rfl false rfl rfl (fun hna => by cases hna)).2

/-! ### The plugin-dispatch claims -/

/-- C8 -- When the plugin name cannot be resolved to a loadable module,
`Plugin.__call__` raises a `ValueError` whose message names the requested
plugin and the underlying import error, and the plugin entry point is never
invoked — whatever the dataset, the help flag and the arguments are. -/
theorem plugin_unresolvable_raises {DS R : Type} (env : PluginEnv DS R)
    (plugin : String) (dataset : Option DS) (showpluginhelp : Bool)
    (unparsedArgs : Option (List String)) (e : String)
    (himp : env.importMod plugin = Except.error e) :
    (Plugin.call env plugin dataset showpluginhelp unparsedArgs).result =
      Except.error (PluginError.valueError
        ("cannot load plugin \x27" ++ plugin ++ "\x27: " ++ e)) ∧
    (Plugin.call env plugin dataset showpluginhelp
      unparsedArgs).entryInvoked = false := by
  constructor <;> simp only [Plugin.call, himp]

/-- Witness for C8: requesting the plugin `bogus` in an environment where no
module imports raises the naming `ValueError` without invoking anything. -/
theorem plugin_unresolvable_raises_witness :
    (Plugin.call testPluginEnvBad "bogus" none false none).result =
      Except.error (PluginError.valueError
        ("cannot load plugin \x27" ++ "bogus" ++ "\x27: " ++
          ("No module named \x27datalad.plugin." ++ "bogus" ++ "\x27"))) ∧
    (Plugin.call testPluginEnvBad "bogus" none false none).entryInvoked =
      false :=
  plugin_unresolvable_raises testPluginEnvBad "bogus" none false none
    ("No module named \x27datalad.plugin." ++ "bogus" ++ "\x27") rfl

/-- C10 -- With `showpluginhelp=True` and a resolvable plugin,
`Plugin.__call__` returns the pair `(plugin module, None)` without calling
`require_dataset` (the dataset argument may be `None` or not installed — the
environment is arbitrary, including one where every dataset resolution
fails) and without invoking the plugin entry point. -/
theorem plugin_showhelp_no_dataset {DS R : Type} (env : PluginEnv DS R)
    (plugin : String) (dataset : Option DS)
    (unparsedArgs : Option (List String)) (m : PluginModule)
    (himp : env.importMod plugin = Except.ok m) :
    Plugin.call env plugin dataset true unparsedArgs =
      { result := Except.ok (m, none),
        datasetResolved := false, entryInvoked := false } := by
  simp only [Plugin.call, himp, if_pos]

/-- Witness for C10: asking for the help of the resolvable plugin `export`
with no dataset at all, in an environment where dataset resolution always
fails, returns the module paired with `None`. -/
theorem plugin_showhelp_no_dataset_witness :
    Plugin.call testPluginEnvHelp "export" none true none =
      { result := Except.ok ({ modName := "export" }, none),
        datasetResolved := false, entryInvoked := false } :=
  plugin_showhelp_no_dataset testPluginEnvHelp "export" none none
    { modName := "export" } rfl

end Datalad
